import Mathlib

/-!
Verification of the WorkoutTracer CDK infrastructure composition.

The repository declares AWS CDK stacks (database, auth, website, api,
api-dns) parameterized by a deployment stage, and a CodePipeline stack
that rebuilds and redeploys them.  The declarations are embedded here as
plain data; vendor execution semantics (CodePipeline phase sequencing,
API Gateway authorizer dispatch, CloudWatch alarm evaluation) that the
repository merely configures are modelled from the specification's
description of those services.
-/

namespace WorkoutTracer

/-! ## Resource naming (database-stack.ts, website-stack.ts) -/

/-- `src/lib/stacks/database-stack.ts`: the per-stage user table is named
with a template literal over the stage. -/
def userTableName (stage : String) : String :=
  "WorkoutTracer-UserTable-" ++ stage

/-- `src/lib/stacks/website-stack.ts`: the site bucket name lowercases the
stage token. -/
def websiteBucketName (stage : String) : String :=
  "workouttracer-website-bucket-" ++ stage.toLower

/-- The generic `<Prefix>-<Role>-<Stage>` derivation used throughout the
stacks (`WorkoutTracer-${role}-${stage}` template literals). -/
def resourceName (role stage : String) : String :=
  "WorkoutTracer-" ++ role ++ "-" ++ stage

/-! ## Pipeline stage declarations (pipeline-stack.ts / part_000) -/

/-- A declared pipeline stage: its name and its action names, as passed to
`pipeline.addStage`. -/
structure StageDecl where
  stageName : String
  actions : List String
deriving Repr, DecidableEq

/-- A CodePipeline under construction: the ordered list of declared stages. -/
structure Pipeline where
  stages : List StageDecl
deriving Repr, DecidableEq

/-- `pipeline.addStage` appends a stage declaration after all previously
declared stages. -/
def Pipeline.addStage (p : Pipeline) (s : StageDecl) : Pipeline :=
  { stages := p.stages ++ [s] }

/-- The pipeline as constructed in `PipelineStack` (both the inline
`pipeline-stack.ts` variant and the modular `part_000` variant): four
successive `addStage` calls. -/
def pipelineStack : Pipeline :=
  ((((Pipeline.mk []).addStage { stageName := "Source", actions := ["GitHub_Source"] }).addStage
      { stageName := "ArtifactsBuild", actions := ["BuildAndPackage"] }).addStage
      { stageName := "Staging", actions := ["Deploy-Staging"] }).addStage
      { stageName := "Prod", actions := ["Deploy-Prod"] }

def pipelineStageNames : List String :=
  pipelineStack.stages.map StageDecl.stageName

/-- Modelled from the spec: CodePipeline phase execution is strictly
sequential — a phase runs only when every earlier phase completed with all
its actions successful, and a failed action halts the pipeline at that
phase so downstream phases never run.  `ok` gives each stage's outcome;
the result is the list of stages that actually execute. -/
def runPipeline (ok : String → Bool) : List StageDecl → List StageDecl
  | [] => []
  | s :: rest => s :: (if ok s.stageName then runPipeline ok rest else [])

/-! ## Stage configuration and per-stage synthesis (bin/workout_tracer_cdk.ts) -/

/-- The per-stage settings record destructured from `cdk.env.json` in
`src/bin/workout_tracer_cdk.ts` (fields read by the stage loop). -/
structure StageConfig where
  hostedZoneId : String
  websiteDomainName : String
  apiDomainName : String
  callbackUrls : List String
  websiteCertificateArn : String
  apiCertificateArn : String
deriving Repr, DecidableEq

/-- A concrete stage configuration record, used to instantiate the
synthesis model in witnesses and counterexamples. -/
def sampleConfig : StageConfig :=
  { hostedZoneId := "Z0"
    websiteDomainName := "example.com"
    apiDomainName := "api.example.com"
    callbackUrls := ["https://example.com/callback"]
    websiteCertificateArn := "arn:web"
    apiCertificateArn := "arn:api" }

/-- The kinds of per-stage stacks instantiated by the entry point. -/
inductive StackKind where
  | database | auth | website | api | apiDns
deriving Repr, DecidableEq

/-- A cross-stack output handle threaded between stack instantiations:
`databaseStack.table`, `authStack.userPool`, `authStack.userPoolClient`,
`api.api`. -/
inductive Handle where
  | userTable (stage : String)
  | userPool (stage : String)
  | userPoolClient (stage : String)
  | restApi (stage : String)
deriving Repr, DecidableEq

/-- One stack instantiation: its kind, the stage-loop iteration that
created it, its construct id, the handles it consumes as props, and the
handles it exposes. -/
structure StackInst where
  kind : StackKind
  stage : String
  stackId : String
  inputs : List Handle
  outputs : List Handle
deriving Repr, DecidableEq

/-- The body of the stage loop in `src/bin/workout_tracer_cdk.ts` lines
68–125: five `new ...Stack` calls in source order, with the output handles
each receives as props. -/
def synthStage (stage : String) (_cfg : StageConfig) : List StackInst :=
  [ { kind := .database, stage := stage,
      stackId := "WorkoutTracer-DatabaseStack-" ++ stage,
      inputs := [], outputs := [.userTable stage] },
    { kind := .auth, stage := stage,
      stackId := "WorkoutTracer-AuthStack-" ++ stage,
      inputs := [.userTable stage],
      outputs := [.userPool stage, .userPoolClient stage] },
    { kind := .website, stage := stage,
      stackId := "WorkoutTracer-WebsiteStack-" ++ stage,
      inputs := [], outputs := [] },
    { kind := .api, stage := stage,
      stackId := "WorkoutTracer-ApiStack-" ++ stage,
      inputs := [.userPool stage, .userPoolClient stage],
      outputs := [.restApi stage] },
    { kind := .apiDns, stage := stage,
      stackId := "WorkoutTracer-ApiDnsStack-" ++ stage,
      inputs := [.restApi stage], outputs := [] } ]

/-- The entry point's `for (const stage of Object.keys(envConfig))` loop:
synthesize each configured stage in key order.  The loop is total — a
stage name absent from the map is simply never visited, and no check
relates the map's keys to the pipeline's deploy targets. -/
def synthApp (cfgMap : List (String × StageConfig)) : List StackInst :=
  cfgMap.flatMap fun sc => synthStage sc.1 sc.2

/-- A stack sequence is well-threaded when every handle a stack consumes
was produced by a stack instantiated strictly earlier in the sequence. -/
def wellThreaded : List Handle → List StackInst → Bool
  | _, [] => true
  | avail, s :: rest =>
      s.inputs.all (fun h => avail.contains h) &&
        wellThreaded (avail ++ s.outputs) rest

/-! ## Deploy projects (pipeline/pipelineBuildProjects.ts) -/

/-- `createStagingDeployProject` / `createProdDeployProject`: the stack
list interpolated into the `cdk deploy` command. -/
def stackToDeploy : List String :=
  ["DatabaseStack", "AuthStack", "ApiStack", "ApiDnsStack"]

/-- The stack ids the staging deploy project's build command deploys:
`WorkoutTracer-${stack}-Staging` over `stackToDeploy`. -/
def stagingDeployTargets : List String :=
  stackToDeploy.map fun stack => "WorkoutTracer-" ++ stack ++ "-Staging"

/-- The stack ids the prod deploy project's build command deploys:
`WorkoutTracer-${stack}-Prod` over `stackToDeploy`. -/
def prodDeployTargets : List String :=
  stackToDeploy.map fun stack => "WorkoutTracer-" ++ stack ++ "-Prod"

/-- The `cdk deploy` command line of the staging deploy project's
buildspec. -/
def stagingDeployCommand : String :=
  "cdk deploy " ++ String.intercalate " " stagingDeployTargets ++
    " --require-approval never"

/-- The stage tokens the pipeline's two deploy phases target. -/
def pipelineDeployStages : List String := ["Staging", "Prod"]

/-! ## Configuration loader (bin/workout_tracer_cdk.ts lines 61–63) -/

/-- The entry point's configuration load:
`JSON.parse(fs.readFileSync(path.resolve(__dirname, "../cdk.env.json")))`.
`fileContent` is `none` when the file does not exist (`readFileSync`
throws), and `decode` stands for `JSON.parse` (vendor), returning `none`
on malformed input (`JSON.parse` throws).  The surrounding code reads no
execution-context flag and no environment payload: `cicd` and
`envPayload` are accepted here only to record that the source ignores
them. -/
def loadConfig (_cicd : Bool) (_envPayload : Option String)
    (fileContent : Option String)
    (decode : String → Option (List (String × StageConfig))) :
    Except String (List (String × StageConfig)) :=
  match fileContent with
  | none => .error "ENOENT: no such file or directory, open cdk.env.json"
  | some raw =>
      match decode raw with
      | none => .error "SyntaxError: Unexpected token in JSON"
      | some cfgMap => .ok cfgMap

/-- The environment variables the deploy build projects declare
(`pipelineBuildProjects.ts`): the automated-context flag and the
secret-store configuration payload.  They are exported into the build
jobs' environments but nothing under `bin/` or `lib/` reads them. -/
def deployProjectEnvVars : List String :=
  ["GITHUB_TOKEN", "CICD", "CDK_ENV_CONFIG"]

/-! ## Webhook endpoint (pipeline/pipelineApiGateway.ts) -/

/-- The request authorizer configuration from `createPipelineApiGateway`
(and the inline `pipeline-stack.ts` variant): identity source is the
`X-Hub-Signature-256` header and the results cache TTL is zero seconds. -/
structure AuthorizerConfig where
  identitySourceHeaders : List String
  resultsCacheTtlSeconds : Nat
deriving Repr, DecidableEq

def gitHubAuthorizer : AuthorizerConfig :=
  { identitySourceHeaders := ["X-Hub-Signature-256"]
    resultsCacheTtlSeconds := 0 }

/-- The webhook route wired in `createPipelineApiGateway`: resource
`github-webhook` under the API root, method `POST`, custom authorizer,
integration target `WorkoutTracer-PipelineDeployLambda`. -/
def webhookPath : String := "github-webhook"

def webhookMethod : String := "POST"

def webhookMethodResponses : List String := ["200", "401", "403"]

/-- An inbound webhook request: the optional signature header value and
the raw body. -/
structure WebhookRequest where
  sigHeader : Option String
  body : String
deriving Repr, DecidableEq

/-- Modelled from the spec: the signature-verification gate reads a shared
secret, computes an HMAC over the raw request body, and accepts only on
exact match with the `X-Hub-Signature-256` header.  `mac` abstracts the
HMAC computation (implemented outside this repository). -/
def authorizeRequest (mac : String → String → String) (secret : String)
    (r : WebhookRequest) : Bool :=
  match r.sigHeader with
  | none => false
  | some sig => sig == mac secret r.body

/-- Modelled from the spec: API Gateway custom-authorizer dispatch for the
`POST /github-webhook` method.  A request whose configured identity-source
header is missing is rejected 401 without reaching the integration; a
request the authorizer denies is rejected 403; an authorized request
invokes the integration (which starts a pipeline execution) and returns
200.  The second component records whether a pipeline execution was
started. -/
def handleWebhook (mac : String → String → String) (secret : String)
    (r : WebhookRequest) : Nat × Bool :=
  match r.sigHeader with
  | none => (401, false)
  | some sig =>
      if sig == mac secret r.body then (200, true) else (403, false)

/-- Modelled from the spec and the vendor's authorizer-cache contract:
with a positive TTL the gateway caches the authorizer decision keyed on
the identity-source value and reuses it for later requests; with TTL zero
no decision is ever stored.  Returns the decision taken for each request
of the trace in order. -/
def runAuthorizer (ttl : Nat) (decide' : WebhookRequest → Bool) :
    List (String × Bool) → List WebhookRequest → List Bool
  | _, [] => []
  | cache, r :: rest =>
      match r.sigHeader with
      | none => false :: runAuthorizer ttl decide' cache rest
      | some key =>
          match cache.lookup key with
          | some cached => cached :: runAuthorizer ttl decide' cache rest
          | none =>
              let d := decide' r
              d :: runAuthorizer ttl decide'
                (if ttl > 0 then (key, d) :: cache else cache) rest

/-! ## CloudWatch alarm configurations (api monitoring variants) -/

/-- The comparison operators used by the repository's alarms. -/
inductive CmpOp where
  | greaterThanThreshold
  | greaterThanOrEqualToThreshold
deriving Repr, DecidableEq

/-- The alarm fields the repository sets that determine when the alarm
fires: threshold, window size, required breaching datapoints, comparison
operator, and whether an SNS alarm action is attached. -/
structure AlarmConfig where
  threshold : ℚ
  evaluationPeriods : Nat
  datapointsToAlarm : Nat
  op : CmpOp
  notifiesTopic : Bool
deriving Repr, DecidableEq

/-- Modelled from the spec's glossary (an alarm is a threshold-based
monitor that triggers on breach), following the vendor's documented
evaluation rule: a datapoint breaches when it compares against the
threshold under the configured operator. -/
def breaches (c : AlarmConfig) (d : ℚ) : Bool :=
  match c.op with
  | .greaterThanThreshold => c.threshold < d
  | .greaterThanOrEqualToThreshold => c.threshold ≤ d

/-- Modelled from the vendor's documented evaluation rule: over a window
of the last `evaluationPeriods` datapoints, the alarm transitions to
ALARM exactly when at least `datapointsToAlarm` of them breach. -/
def alarmFires (c : AlarmConfig) (window : List ℚ) : Bool :=
  c.datapointsToAlarm ≤ (window.filter (breaches c)).length

/-- The 4xx-rate alarm declared in `src/lib/stacks/api-dns-stack.ts`
(`addApiMonitoring`): threshold 40, 1 evaluation period, `>=` comparison,
and no alarm action attached (no SNS topic exists in that variant). -/
def api4xxAlarmApiDnsVariant : AlarmConfig :=
  { threshold := 40, evaluationPeriods := 1, datapointsToAlarm := 1
    op := .greaterThanOrEqualToThreshold, notifiesTopic := false }

/-- The 4xx-rate alarm declared in `src/unnamed/part_004`
(`addApiMonitoring`): threshold 40, 1 evaluation period, `>=` comparison,
with `addAlarmAction(new SnsAction(alarmTopic))` on the per-stage
escalation topic. -/
def api4xxAlarmPart004 : AlarmConfig :=
  { threshold := 40, evaluationPeriods := 1, datapointsToAlarm := 1
    op := .greaterThanOrEqualToThreshold, notifiesTopic := true }

/-- The 4xx-rate alarm declared in `src/unnamed/part_005`
(`addApiMonitoring`): threshold 50, 6 evaluation periods, all 6 datapoints
must breach, `>=` comparison, SNS alarm action attached. -/
def api4xxAlarmPart005 : AlarmConfig :=
  { threshold := 50, evaluationPeriods := 6, datapointsToAlarm := 6
    op := .greaterThanOrEqualToThreshold, notifiesTopic := true }

/-! ## Federated identity pools (auth-stack.ts, api-stack.ts, parts 002/003) -/

/-- The fields of each `CfnIdentityPool` declaration relevant to
unauthenticated access. -/
structure IdentityPoolDecl where
  constructId : String
  allowUnauthenticatedIdentities : Bool
deriving Repr, DecidableEq

/-- Every `new cognito.CfnIdentityPool(...)` declaration in the
repository, across all stack variants, instantiated at a stage: the two
`AuthStack` variants (`auth-stack.ts` lines 117 and 318), the staged
`ApiStack` (`api-stack.ts` line 196), the unstaged `ApiStack` variant
(`part_002` line 97), and the staged `ApiStack` variant (`part_003` line
141). -/
def allIdentityPools (stage : String) : List IdentityPoolDecl :=
  [ { constructId := "IdentityPool"
      allowUnauthenticatedIdentities := false },
    { constructId := "WorkoutTracer-IdentityPool-" ++ stage
      allowUnauthenticatedIdentities := false },
    { constructId := "WorkoutTracer-IdentityPool-" ++ stage
      allowUnauthenticatedIdentities := false },
    { constructId := "WorkoutTracerIdentityPool"
      allowUnauthenticatedIdentities := false },
    { constructId := "WorkoutTracer-IdentityPool-" ++ stage
      allowUnauthenticatedIdentities := false } ]

/-! ## Helper lemmas -/

theorem string_append_left_cancel (p s t : String) (h : p ++ s = p ++ t) :
    s = t := by
  have hd : (p ++ s).data = (p ++ t).data := congrArg String.data h
  simp only [String.data_append] at hd
  exact String.ext (List.append_cancel_left hd)

/-- With a zero results-cache TTL the authorizer trace evaluates every
request independently: the run over any trace is the pointwise map of the
single-request decision, regardless of the (empty-started) cache. -/
theorem runAuthorizer_zero_ttl (de : WebhookRequest → Bool) :
    ∀ rs : List WebhookRequest,
      runAuthorizer 0 de [] rs =
        rs.map fun r =>
          match r.sigHeader with
          | none => false
          | some _ => de r := by
  intro rs
  induction rs with
  | nil => rfl
  | cons r rest ih =>
      cases h : r.sigHeader with
      | none => simp [runAuthorizer, h, ih]
      | some key => simp [runAuthorizer, h, ih, List.lookup]

/-! ## Claim theorems -/

/-- C5: physical resource names are derived as `<Prefix>-<Role>-<Stage>`,
so for a fixed role the derived name is injective in the stage (distinct
stages yield distinct names, e.g. the Staging and Prod user tables), and
the globally-namespaced website bucket name additionally lowercases the
stage token. -/
theorem claim_C5_resource_naming :
    (∀ role s t : String, resourceName role s = resourceName role t → s = t) ∧
    (∀ s t : String, userTableName s = userTableName t → s = t) ∧
    userTableName "Staging" ≠ userTableName "Prod" ∧
    (∀ stage : String,
      websiteBucketName stage = "workouttracer-website-bucket-" ++ stage.toLower) := by
  refine ⟨?_, ?_, ?_, fun _ => rfl⟩
  · intro role s t h
    exact string_append_left_cancel _ s t h
  · intro s t h
    exact string_append_left_cancel _ s t h
  · decide

theorem claim_C5_witness :
    ("Staging" : String) = "Staging" ∧ ("Prod" : String) = "Prod" :=
  ⟨claim_C5_resource_naming.1 "UserTable" "Staging" "Staging" rfl,
   claim_C5_resource_naming.2.1 "Prod" "Prod" rfl⟩

/-- C10: every federated identity pool declared anywhere in the
repository, in every stack variant and at every stage, sets
`allowUnauthenticatedIdentities` to `false`. -/
theorem claim_C10_no_unauthenticated_identities :
    ∀ stage : String,
      (allIdentityPools stage).all
        (fun p => p.allowUnauthenticatedIdentities = false) = true := by
  intro stage
  rfl

/-- C9: the webhook request authorizer is declared with a results-cache
TTL of zero seconds, so the decision trace over any request sequence is
the pointwise evaluation of each request on its own — no decision of an
earlier request is ever reused. -/
theorem claim_C9_no_authorizer_caching :
    gitHubAuthorizer.resultsCacheTtlSeconds = 0 ∧
    (∀ (de : WebhookRequest → Bool) (rs : List WebhookRequest),
      runAuthorizer gitHubAuthorizer.resultsCacheTtlSeconds de [] rs =
        rs.map fun r =>
          match r.sigHeader with
          | none => false
          | some _ => de r) :=
  ⟨rfl, fun de rs => runAuthorizer_zero_ttl de rs⟩

/-- C1: the pipeline declares its stages in the strict order Source,
ArtifactsBuild, Staging, Prod; under the sequential execution semantics
the Prod phase runs only after the Staging phase executed and succeeded,
and a failure in any phase prevents every later phase from running. -/
theorem claim_C1_pipeline_phase_order :
    pipelineStageNames = ["Source", "ArtifactsBuild", "Staging", "Prod"] ∧
    (∀ ok : String → Bool,
      "Prod" ∈ (runPipeline ok pipelineStack.stages).map StageDecl.stageName →
        ok "Staging" = true ∧
        "Staging" ∈ (runPipeline ok pipelineStack.stages).map StageDecl.stageName) ∧
    (∀ ok : String → Bool, ok "Source" = false →
      (runPipeline ok pipelineStack.stages).map StageDecl.stageName = ["Source"]) ∧
    (∀ ok : String → Bool, ok "ArtifactsBuild" = false →
      "Staging" ∉ (runPipeline ok pipelineStack.stages).map StageDecl.stageName ∧
      "Prod" ∉ (runPipeline ok pipelineStack.stages).map StageDecl.stageName) ∧
    (∀ ok : String → Bool, ok "Staging" = false →
      "Prod" ∉ (runPipeline ok pipelineStack.stages).map StageDecl.stageName) := by
  refine ⟨rfl, ?_, ?_, ?_, ?_⟩
  · intro ok h
    by_cases hSrc : ok "Source" = true
    · by_cases hBld : ok "ArtifactsBuild" = true
      · by_cases hStg : ok "Staging" = true
        · constructor
          · exact hStg
          · simp [pipelineStack, Pipeline.addStage, runPipeline, hSrc, hBld, hStg]
        · exfalso
          simp [pipelineStack, Pipeline.addStage, runPipeline, hSrc, hBld, hStg] at h
      · exfalso
        simp [pipelineStack, Pipeline.addStage, runPipeline, hSrc, hBld] at h
    · exfalso
      simp [pipelineStack, Pipeline.addStage, runPipeline, hSrc] at h
  · intro ok h
    simp [pipelineStack, Pipeline.addStage, runPipeline, h]
  · intro ok h
    by_cases hSrc : ok "Source" = true <;>
      simp [pipelineStack, Pipeline.addStage, runPipeline, hSrc, h]
  · intro ok h
    by_cases hSrc : ok "Source" = true <;>
      by_cases hBld : ok "ArtifactsBuild" = true <;>
        simp [pipelineStack, Pipeline.addStage, runPipeline, hSrc, hBld, h]

theorem claim_C1_witness :
    ((fun _ : String => true) "Staging" = true ∧
      "Staging" ∈ (runPipeline (fun _ : String => true)
        pipelineStack.stages).map StageDecl.stageName) ∧
    "Prod" ∉ (runPipeline (fun n : String => !(n == "Staging"))
      pipelineStack.stages).map StageDecl.stageName :=
  ⟨claim_C1_pipeline_phase_order.2.1 (fun _ => true) (by decide),
   claim_C1_pipeline_phase_order.2.2.2.2 (fun n => !(n == "Staging")) (by decide)⟩

/-- C2: for each entry of the resolved configuration map, the synthesis
entry point instantiates exactly the five per-stage stacks in the order
database → auth → website → api → api-dns, each instantiated stack's
inputs are drawn only from outputs of stacks earlier in that sequence,
and the five instantiations appear in the synthesized application. -/
theorem claim_C2_stage_stack_sequence (stage : String) (cfg : StageConfig)
    (cfgMap : List (String × StageConfig)) (h : (stage, cfg) ∈ cfgMap) :
    (synthStage stage cfg).map StackInst.kind =
      [.database, .auth, .website, .api, .apiDns] ∧
    (synthStage stage cfg).map StackInst.stackId =
      [ "WorkoutTracer-DatabaseStack-" ++ stage,
        "WorkoutTracer-AuthStack-" ++ stage,
        "WorkoutTracer-WebsiteStack-" ++ stage,
        "WorkoutTracer-ApiStack-" ++ stage,
        "WorkoutTracer-ApiDnsStack-" ++ stage ] ∧
    wellThreaded [] (synthStage stage cfg) = true ∧
    ∀ inst ∈ synthStage stage cfg, inst ∈ synthApp cfgMap := by
  refine ⟨rfl, rfl, ?_, ?_⟩
  · simp [wellThreaded, synthStage]
  · intro inst hinst
    simp only [synthApp, List.mem_flatMap]
    exact ⟨(stage, cfg), h, hinst⟩

theorem claim_C2_witness :
    (synthStage "Staging" sampleConfig).map StackInst.kind =
      [.database, .auth, .website, .api, .apiDns] ∧
    wellThreaded [] (synthStage "Staging" sampleConfig) = true :=
  ⟨(claim_C2_stage_stack_sequence "Staging" sampleConfig
      [("Staging", sampleConfig)] (by simp)).1,
   (claim_C2_stage_stack_sequence "Staging" sampleConfig
      [("Staging", sampleConfig)] (by simp)).2.2.1⟩

/-- C6: the webhook endpoint is `POST /github-webhook` with the
`X-Hub-Signature-256` header as the authorizer's identity source; a
request whose signature is missing or does not match the HMAC of the
body is answered 401 or 403 and starts no pipeline execution, while a
request with the matching signature is answered 200 and starts one. -/
theorem claim_C6_webhook_signature_gate :
    webhookMethod = "POST" ∧
    webhookPath = "github-webhook" ∧
    gitHubAuthorizer.identitySourceHeaders = ["X-Hub-Signature-256"] ∧
    (∀ (mac : String → String → String) (secret : String) (r : WebhookRequest),
      authorizeRequest mac secret r = false →
        ((handleWebhook mac secret r).1 = 401 ∨
          (handleWebhook mac secret r).1 = 403) ∧
        (handleWebhook mac secret r).2 = false) ∧
    (∀ (mac : String → String → String) (secret : String) (r : WebhookRequest),
      authorizeRequest mac secret r = true →
        handleWebhook mac secret r = (200, true)) := by
  refine ⟨rfl, rfl, rfl, ?_, ?_⟩
  · intro mac secret r h
    cases hs : r.sigHeader with
    | none => simp [handleWebhook, hs]
    | some sig =>
        simp only [authorizeRequest, hs] at h
        simp [handleWebhook, hs, h]
  · intro mac secret r h
    cases hs : r.sigHeader with
    | none => simp [authorizeRequest, hs] at h
    | some sig =>
        simp only [authorizeRequest, hs] at h
        simp [handleWebhook, hs, h]

theorem claim_C6_witness :
    (((handleWebhook (fun s b => s ++ b) "sec"
        { sigHeader := some "wrong", body := "payload" }).1 = 401 ∨
      (handleWebhook (fun s b => s ++ b) "sec"
        { sigHeader := some "wrong", body := "payload" }).1 = 403) ∧
      (handleWebhook (fun s b => s ++ b) "sec"
        { sigHeader := some "wrong", body := "payload" }).2 = false) ∧
    handleWebhook (fun s b => s ++ b) "sec"
      { sigHeader := some "secpayload", body := "payload" } = (200, true) :=
  ⟨claim_C6_webhook_signature_gate.2.2.2.1 (fun s b => s ++ b) "sec"
      { sigHeader := some "wrong", body := "payload" } (by decide),
   claim_C6_webhook_signature_gate.2.2.2.2 (fun s b => s ++ b) "sec"
      { sigHeader := some "secpayload", body := "payload" } (by decide)⟩

/-- C3 counterexample: the deploy projects' stack list omits the
static-site stack — neither the staging nor the prod deploy command
deploys a `WebsiteStack`, so the phases do not deploy the full per-stage
set of steps 2–6. -/
theorem claim_C3_counterexample :
    "WebsiteStack" ∉ stackToDeploy ∧
    "WorkoutTracer-WebsiteStack-Staging" ∉ stagingDeployTargets ∧
    "WorkoutTracer-WebsiteStack-Prod" ∉ prodDeployTargets := by
  refine ⟨?_, ?_, ?_⟩ <;> decide

/-- C3 (amended): the staging deploy phase deploys exactly the four
stacks database, auth, api-compute and api-dns — not the static-site
stack — suffixed with the `Staging` stage token only, and the prod deploy
phase deploys the same four suffixed with `Prod` only. -/
theorem claim_C3_deploy_targets :
    stackToDeploy = ["DatabaseStack", "AuthStack", "ApiStack", "ApiDnsStack"] ∧
    stagingDeployTargets =
      [ "WorkoutTracer-DatabaseStack-Staging",
        "WorkoutTracer-AuthStack-Staging",
        "WorkoutTracer-ApiStack-Staging",
        "WorkoutTracer-ApiDnsStack-Staging" ] ∧
    prodDeployTargets =
      [ "WorkoutTracer-DatabaseStack-Prod",
        "WorkoutTracer-AuthStack-Prod",
        "WorkoutTracer-ApiStack-Prod",
        "WorkoutTracer-ApiDnsStack-Prod" ] ∧
    stagingDeployCommand =
      "cdk deploy WorkoutTracer-DatabaseStack-Staging WorkoutTracer-AuthStack-Staging WorkoutTracer-ApiStack-Staging WorkoutTracer-ApiDnsStack-Staging --require-approval never" := by
  refine ⟨rfl, rfl, rfl, rfl⟩

/-- C4 counterexample: with a configuration map containing only the
`Staging` key while the pipeline's deploy-target list names `Prod`,
synthesis does not fail — it completes normally, emitting the five
Staging stacks and zero stacks for the `Prod` stage. -/
theorem claim_C4_counterexample :
    "Prod" ∈ pipelineDeployStages ∧
    (List.lookup "Prod" [("Staging", sampleConfig)]) = none ∧
    synthApp [("Staging", sampleConfig)] = synthStage "Staging" sampleConfig ∧
    (synthApp [("Staging", sampleConfig)]).length = 5 ∧
    (synthApp [("Staging", sampleConfig)]).all
      (fun inst => inst.stage ≠ "Prod") = true := by
  refine ⟨by decide, by decide, by simp [synthApp], rfl, by decide⟩

/-- C4 (amended): the synthesis entry point performs no check relating
the pipeline's deploy-target stages to the configuration map — it
iterates only over the map's keys, so a stage referenced by the pipeline
but absent from the map is silently skipped: synthesis completes without
error and emits zero stack instantiations for that stage (the missing
stacks can only fail later, at deploy time). -/
theorem claim_C4_missing_stage_skipped
    (cfgMap : List (String × StageConfig)) (stage : String)
    (h : stage ∉ cfgMap.map Prod.fst) :
    ∀ inst ∈ synthApp cfgMap, inst.stage ≠ stage := by
  intro inst hinst
  simp only [synthApp, List.mem_flatMap] at hinst
  obtain ⟨sc, hsc, hmem⟩ := hinst
  have hstage : inst.stage = sc.1 := by
    simp only [synthStage, List.mem_cons, List.not_mem_nil, or_false] at hmem
    rcases hmem with h1 | h1 | h1 | h1 | h1 <;> simp [h1]
  intro hEq
  exact h (hEq ▸ hstage ▸ List.mem_map_of_mem Prod.fst hsc)

theorem claim_C4_witness :
    ({ kind := .database, stage := "Staging"
       stackId := "WorkoutTracer-DatabaseStack-Staging"
       inputs := [], outputs := [.userTable "Staging"] } : StackInst).stage ≠
      "Prod" :=
  claim_C4_missing_stage_skipped [("Staging", sampleConfig)] "Prod" (by decide)
    _ (by decide)

/-- C7 counterexample: the `part_005` variant of the API 4xx-rate alarm
(one of the declarations of `addApiMonitoring`) uses threshold 50 over 6
evaluation periods, so a 4xx rate of 40% sustained for the configured
number of evaluation periods does not transition it to ALARM; and the
`api-dns-stack.ts` variant attaches no notification action at all. -/
theorem claim_C7_counterexample :
    alarmFires api4xxAlarmPart005 (List.replicate 6 (40 : ℚ)) = false ∧
    api4xxAlarmApiDnsVariant.notifiesTopic = false := by
  refine ⟨by decide, rfl⟩

/-- C7 (amended): the 4xx-rate alarms compare with `>=`: in the
`api-dns-stack.ts` and `part_004` variants the threshold is 40 over one
period, so a rate strictly below 40% (e.g. 39%) leaves the alarm OK and a
rate of 40% or more transitions it to ALARM — with only the `part_004`
variant publishing to its notification topic — while the `part_005`
variant fires exactly when the rate is at least 50% in all six
consecutive periods. -/
theorem claim_C7_alarm_boundaries :
    (∀ d : ℚ, alarmFires api4xxAlarmApiDnsVariant [d] = decide (40 ≤ d)) ∧
    alarmFires api4xxAlarmApiDnsVariant [39] = false ∧
    alarmFires api4xxAlarmApiDnsVariant [40] = true ∧
    (∀ d : ℚ, alarmFires api4xxAlarmPart004 [d] = decide (40 ≤ d)) ∧
    api4xxAlarmPart004.notifiesTopic = true ∧
    alarmFires api4xxAlarmPart005 (List.replicate 6 (50 : ℚ)) = true ∧
    alarmFires api4xxAlarmPart005 (List.replicate 6 (49 : ℚ)) = false := by
  refine ⟨?_, by decide, by decide, ?_, rfl, by decide, by decide⟩
  · intro d
    by_cases h : (40 : ℚ) ≤ d <;>
      simp [alarmFires, breaches, api4xxAlarmApiDnsVariant, h]
  · intro d
    by_cases h : (40 : ℚ) ≤ d <;>
      simp [alarmFires, breaches, api4xxAlarmPart004, h]

/-- C8 counterexample: in automated context (`cicd = true`) with the
expected configuration payload absent (`none`), the loader does not fail
fast — it reads the checked-in file and succeeds. -/
theorem claim_C8_counterexample :
    loadConfig true none (some "file-on-disk")
      (fun _ => some [("Staging", sampleConfig)]) =
      .ok [("Staging", sampleConfig)] := rfl

/-- C8 (amended): the configuration loader does not branch on the
execution-context flag — in every context it reads the checked-in
`cdk.env.json`, failing (fatally) exactly when that file is absent or
unparsable, and otherwise producing the stage-name → StageConfig map;
the automated-context flag and serialized payload are declared in the
deploy projects' environments but never consumed by the loader. -/
theorem claim_C8_loader_ignores_context :
    (∀ (c₁ c₂ : Bool) (p₁ p₂ : Option String) (f : Option String)
        (decode : String → Option (List (String × StageConfig))),
      loadConfig c₁ p₁ f decode = loadConfig c₂ p₂ f decode) ∧
    (∀ (c : Bool) (p : Option String)
        (decode : String → Option (List (String × StageConfig))),
      loadConfig c p none decode =
        .error "ENOENT: no such file or directory, open cdk.env.json") ∧
    (∀ (c : Bool) (p : Option String) (raw : String)
        (decode : String → Option (List (String × StageConfig)))
        (cfgMap : List (String × StageConfig)),
      decode raw = some cfgMap →
        loadConfig c p (some raw) decode = .ok cfgMap) ∧
    "CICD" ∈ deployProjectEnvVars ∧ "CDK_ENV_CONFIG" ∈ deployProjectEnvVars := by
  refine ⟨?_, fun _ _ _ => rfl, ?_, by decide, by decide⟩
  · intro c₁ c₂ p₁ p₂ f decode
    cases f <;> rfl
  · intro c p raw decode cfgMap h
    simp [loadConfig, h]

theorem claim_C8_witness :
    loadConfig false none (some "raw")
      (fun _ => some [("Prod", sampleConfig)]) =
      .ok [("Prod", sampleConfig)] :=
  claim_C8_loader_ignores_context.2.2.1 false none "raw"
    (fun _ => some [("Prod", sampleConfig)]) [("Prod", sampleConfig)] rfl

end WorkoutTracer
